import Mathlib

/-!
Shallow embedding of the universal-http-ping-service repository
(src/simple-ping.js and the cron service in src/unnamed/part_000).

The two scripts share the same probing logic: `pingWebsite` issues one GET
request and resolves with a result object when a response (any status code)
arrives, or rejects with an error object on timeout, transport error or URL
parse failure; `pingAllWebsites` loops over the configured URL list
sequentially, catching every rejection and pushing the rejected value into
the results array.

External effects are made explicit parameters:
  * URL parsing (`new URL(url)`, a platform builtin) is a parameter
    `parse : String → Except String Url`: `.ok` is a successful construction
    (we keep the fields the scripts read: protocol, hostname, pathname),
    `.error msg` is the thrown TypeError's message.
  * the network is a parameter `ev : Nat → NetEvent` giving, per list index,
    what the transport produced for that request (a response with a status
    code, a timeout, or a transport error);
  * wall-clock time is a parameter `el : Nat → Nat` giving each request's
    measured `Date.now() - startTime` in milliseconds.
-/

namespace PingService

/-- The fields of a parsed `new URL(url)` object that the scripts read
(protocol, hostname, pathname; port and search are not needed by any claim). -/
structure Url where
  scheme : String
  hostname : String
  pathname : String
deriving Repr, DecidableEq

/-- What the transport produced for one dispatched request: the `protocol.get`
callback fired with a response, the `timeout` event fired, or the `error`
event fired with a message. -/
inductive NetEvent where
  | response (statusCode : Nat)
  | timeout
  | transportError (msg : String)
deriving Repr, DecidableEq

/-- One entry of the `results` array of `pingAllWebsites`: either a value the
`pingWebsite` promise resolved with (`{url, success, statusCode, responseTime}`)
or a value it rejected with (`{url, error, responseTime}`).  JavaScript resolve
objects carry no `error` field and reject objects carry no `success` or
`statusCode` field; the record unifies both shapes with `Option` fields, and
`success := false` stands for the absent (hence falsy, exactly as read by
`results.filter((r) => r.success)`) `success` property of reject objects. -/
structure ProbeOutcome where
  url : String
  success : Bool
  statusCode : Option Nat
  error : Option String
  responseTime : Nat
deriving Repr, DecidableEq

/-- A reject object shape used as a `getD` fallback in statements. -/
def defaultOutcome : ProbeOutcome :=
  { url := "", success := false, statusCode := none, error := none, responseTime := 0 }

/-- src/simple-ping.js lines 25-114 (and src/unnamed/part_000 lines 65-141,
identical in every aspect any claim touches): `pingWebsite(url)`.
`.ok` is the promise resolving, `.error` is it rejecting.
  * `new URL(url)` throws (`parse = .error msg`): reject with
    `error: "Invalid URL: " ++ msg` (simple-ping.js line 109 interpolates the
    thrown message after the literal prefix) and no status code;
  * a response arrives: resolve, with `success` set by the
    `res.statusCode >= 200 && res.statusCode < 400` test, and the status code
    always carried;
  * the timeout event: reject with `error: "Request timeout"`;
  * a transport error: reject with the transport's message. -/
def pingWebsite (url : String) (parse : Except String Url) (ev : NetEvent)
    (elapsed : Nat) : Except ProbeOutcome ProbeOutcome :=
  match parse with
  | .error msg =>
    .error { url := url, success := false, statusCode := none,
             error := some ("Invalid URL: " ++ msg), responseTime := elapsed }
  | .ok _ =>
    match ev with
    | .response c =>
      if 200 ≤ c ∧ c < 400 then
        .ok { url := url, success := true, statusCode := some c,
              error := none, responseTime := elapsed }
      else
        .ok { url := url, success := false, statusCode := some c,
              error := none, responseTime := elapsed }
    | .timeout =>
      .error { url := url, success := false, statusCode := none,
               error := some "Request timeout", responseTime := elapsed }
    | .transportError msg =>
      .error { url := url, success := false, statusCode := none,
               error := some msg, responseTime := elapsed }

/-- The cycle loop's `try { results.push(await ...) } catch { results.push(error) }`:
both the resolved and the rejected value land in the results array. -/
def settle : Except ProbeOutcome ProbeOutcome → ProbeOutcome
  | .ok r => r
  | .error e => e

/-- src/simple-ping.js lines 121-140: the `for` loop of `pingAllWebsites`,
returning the `results` array together with the `totalTime` accumulator.
The `try` branch always adds `result.responseTime`; the `catch` branch adds
`error.responseTime` only when it is truthy (`if (error.responseTime)`),
i.e. non-zero.  The inter-request `setTimeout` delay only suspends and is
not modelled.  (src/unnamed/part_000 lines 151-163 run the same loop without
the `totalTime` accumulator.) -/
def cycleLoop (parse : String → Except String Url) (ev : Nat → NetEvent)
    (el : Nat → Nat) : List String → Nat → List ProbeOutcome × Nat
  | [], _ => ([], 0)
  | w :: ws, i =>
    let rest := cycleLoop parse ev el ws (i + 1)
    match pingWebsite w (parse w) (ev i) (el i) with
    | .ok r => (r :: rest.1, r.responseTime + rest.2)
    | .error e => (e :: rest.1, (if e.responseTime ≠ 0 then e.responseTime else 0) + rest.2)

/-- JavaScript floating-point division as used for
`avgResponseTime = totalTime / results.length`: the result is an exact
rational when the divisor is non-zero, and `none` — standing for the IEEE
non-finite value JavaScript produces (`NaN` for `0/0`) — when it is zero. -/
def jsDiv (a b : Nat) : Option ℚ :=
  if b = 0 then none else some ((a : ℚ) / (b : ℚ))

/-- The summary object returned by `pingAllWebsites` in src/simple-ping.js
lines 152-158. -/
structure CycleSummary where
  successful : Nat
  failed : Nat
  total : Nat
  averageResponseTime : Option ℚ
  results : List ProbeOutcome

/-- src/simple-ping.js lines 117-159: `pingAllWebsites()`, over an explicit
website list (the script reads the module-global `WEBSITE_URLS`, see
`websiteUrls`).  `successful` counts the results whose `success` is truthy,
`failed` is the difference, and `avgResponseTime` is `totalTime / results.length`
with no guard for an empty array. -/
def pingAllWebsites (websites : List String) (parse : String → Except String Url)
    (ev : Nat → NetEvent) (el : Nat → Nat) : CycleSummary :=
  let loop := cycleLoop parse ev el websites 0
  let successful := (loop.1.filter fun r => r.success).length
  { successful := successful,
    failed := loop.1.length - successful,
    total := loop.1.length,
    averageResponseTime := jsDiv loop.2 loop.1.length,
    results := loop.1 }

/-- src/unnamed/part_000 lines 177-198 (`validateWebsites`) and the equivalent
inline filter of src/simple-ping.js lines 165-173: keep exactly the entries
for which `new URL(url)` does not throw (the dropped ones are logged). -/
def validateWebsites (websites : List String) (parse : String → Except String Url) :
    List String :=
  websites.filter fun u =>
    match parse u with
    | .ok _ => true
    | .error _ => false

/-- src/simple-ping.js lines 162-204: `main()`'s exit code.  It validates the
configured list, exits 1 when no entry is valid, otherwise runs
`pingAllWebsites()` — which iterates the raw `WEBSITE_URLS`, not the filtered
`validUrls` — and exits 1 when `summary.failed > 0`, else 0. -/
def mainExitCode (websites : List String) (parse : String → Except String Url)
    (ev : Nat → NetEvent) (el : Nat → Nat) : Nat :=
  let validUrls := validateWebsites websites parse
  if validUrls.length = 0 then 1
  else if (pingAllWebsites websites parse ev el).failed > 0 then 1 else 0

/-- The masked-domain computation of src/unnamed/part_000 lines 54-57, on the
hostname's character list: `domain.length > 6` yields
`domain.substring(0, 3) + "***" + domain.substring(domain.length - 3)`,
otherwise the domain is replaced by `"***"`. -/
def maskedDomain (domain : List Char) : List Char :=
  if 6 < domain.length then
    domain.take 3 ++ ['*', '*', '*'] ++ domain.drop (domain.length - 3)
  else ['*', '*', '*']

/-- src/unnamed/part_000 lines 48-62: `maskUrl(url)`.  When `PRIVACY_MODE` is
off it returns the url unchanged; otherwise it parses the url, builds the
masked domain and returns `` `https://${maskedDomain}${parsed.pathname}` ``
(the scheme of the parsed url is never read), and on a parse failure returns
the literal `"https://***"`. -/
def maskUrl (privacyMode : Bool) (url : String) (parse : Except String Url) : String :=
  if privacyMode = false then url
  else
    match parse with
    | .ok parsed =>
      String.mk ("https://".toList ++ maskedDomain parsed.hostname.toList
        ++ parsed.pathname.toList)
    | .error _ => "https://***"

/-- A model of the JavaScript builtin `parseInt` restricted to what the two
scripts can receive through environment variables: leading whitespace is
skipped, an optional sign is read, then a `0x`/`0X` prefix selects base 16,
otherwise base 10; the longest run of digits of the selected base is
converted and trailing garbage is ignored; `none` stands for `NaN` (no
digits at all). -/
def parseDigits (digit : Char → Option Nat) (base : Nat) (cs : List Char) : Option Nat :=
  let ds := cs.takeWhile fun c => (digit c).isSome
  if ds.isEmpty then none
  else some (ds.foldl (fun acc c => acc * base + (digit c).getD 0) 0)

/-- A decimal digit's value. -/
def decDigit (c : Char) : Option Nat :=
  if '0' ≤ c ∧ c ≤ '9' then some (c.toNat - '0'.toNat) else none

/-- A hexadecimal digit's value. -/
def hexDigit (c : Char) : Option Nat :=
  if '0' ≤ c ∧ c ≤ '9' then some (c.toNat - '0'.toNat)
  else if 'a' ≤ c ∧ c ≤ 'f' then some (c.toNat - 'a'.toNat + 10)
  else if 'A' ≤ c ∧ c ≤ 'F' then some (c.toNat - 'A'.toNat + 10)
  else none

/-- `parseInt(s)` with no radix argument (see `parseDigits`). -/
def jsParseInt (s : String) : Option Int :=
  let cs := s.toList.dropWhile Char.isWhitespace
  let sign : Int := match cs with
    | '-' :: _ => -1
    | _ => 1
  let cs := match cs with
    | '-' :: rest => rest
    | '+' :: rest => rest
    | _ => cs
  match cs with
  | '0' :: x :: rest =>
    if x = 'x' ∨ x = 'X' then (parseDigits hexDigit 16 rest).map fun n => sign * n
    else (parseDigits decDigit 10 cs).map fun n => sign * n
  | _ => (parseDigits decDigit 10 cs).map fun n => sign * n

/-- JavaScript `parseInt(e) || d`: `||` yields the right operand when the left
is falsy, and a number is falsy exactly when it is `0`, `-0` or `NaN`
(`none` in the `jsParseInt` model). -/
def jsOrDefault (v : Option Int) (d : Int) : Int :=
  match v with
  | some n => if n = 0 then d else n
  | none => d

/-- src/simple-ping.js line 16: `REQUEST_TIMEOUT = parseInt(env) || 30000`
(`parseInt` of an absent environment variable is `NaN`). -/
def requestTimeout (env : Option String) : Int :=
  jsOrDefault (env.bind fun s => jsParseInt s) 30000

/-- src/unnamed/part_000 line 24: `REQUEST_TIMEOUT = parseInt(env) || 60000`. -/
def requestTimeoutCron (env : Option String) : Int :=
  jsOrDefault (env.bind fun s => jsParseInt s) 60000

/-- src/simple-ping.js line 17 and src/unnamed/part_000 line 23:
`PING_DELAY = parseInt(env) || 1000`. -/
def pingDelay (env : Option String) : Int :=
  jsOrDefault (env.bind fun s => jsParseInt s) 1000

/-- JavaScript `String.prototype.split` with a one-character separator, on
character lists.  `"".split(",")` is `[""]`: the result is never empty. -/
def splitOnChar (sep : Char) : List Char → List (List Char)
  | [] => [[]]
  | c :: cs =>
    if c = sep then [] :: splitOnChar sep cs
    else (c :: (splitOnChar sep cs).headD []) :: (splitOnChar sep cs).tail

/-- JavaScript `String.prototype.trim` on a character list: strip whitespace
from both ends. -/
def jsTrim (cs : List Char) : List Char :=
  ((cs.dropWhile Char.isWhitespace).reverse.dropWhile Char.isWhitespace).reverse

/-- The fallback list of src/simple-ping.js lines 10-14 (identical in
src/unnamed/part_000 lines 16-20). -/
def defaultUrls : List String :=
  ["https://www.example1.com", "https://www.example2.com", "https://www.example3.com"]

/-- src/simple-ping.js lines 8-14 (and src/unnamed/part_000 lines 14-20):
`WEBSITE_URLS = env ? env.split(",").map((url) => url.trim()) : [defaults]`.
An absent variable and the empty string are both falsy, so both select the
defaults; otherwise the comma-split, trimmed pieces. -/
def websiteUrls (env : Option String) : List String :=
  match env with
  | none => defaultUrls
  | some s =>
    if s = "" then defaultUrls
    else (splitOnChar ',' s.toList).map fun cs => String.mk (jsTrim cs)

/-- A concrete `new URL` behavior used by concrete-input theorems: every
string starting with `"https://"` parses (with a fixed host and root path,
enough for the claims that only inspect which urls were probed), everything
else throws `"Invalid URL"` — the message Node's `new URL` uses. -/
def sampleParse : String → Except String Url := fun u =>
  if u = "not a url" then Except.error "Invalid URL"
  else Except.ok { scheme := "https:", hostname := "www.example1.com", pathname := "/" }

/-! ## Helper lemmas -/

/-- Both the resolved and the rejected object carry the probed url. -/
lemma settle_url (u : String) (p : Except String Url) (ev : NetEvent) (t : Nat) :
    (settle (pingWebsite u p ev t)).url = u := by
  cases p with
  | error m => rfl
  | ok v =>
    cases ev with
    | response c => by_cases h : 200 ≤ c ∧ c < 400 <;> simp [pingWebsite, settle, h]
    | timeout => rfl
    | transportError m => rfl

/-- A truthy `success` only arises on the resolve path, which requires the url
to have parsed. -/
lemma settle_success_parseOk (u : String) (p : Except String Url) (ev : NetEvent)
    (t : Nat) (h : (settle (pingWebsite u p ev t)).success = true) :
    ∃ v, p = Except.ok v := by
  cases p with
  | ok v => exact ⟨v, rfl⟩
  | error m => simp [pingWebsite, settle] at h

/-- Every rejected value has a falsy `success` (the real reject object has no
`success` property at all; the model stores the falsy reading). -/
lemma pingWebsite_error_success (u : String) (p : Except String Url) (ev : NetEvent)
    (t : Nat) (e : ProbeOutcome) (h : pingWebsite u p ev t = .error e) :
    e.success = false := by
  cases p with
  | error m =>
    simp only [pingWebsite, Except.error.injEq] at h
    rw [← h]
  | ok v =>
    cases ev with
    | response c =>
      simp only [pingWebsite] at h
      split at h <;> exact Except.noConfusion h
    | timeout =>
      simp only [pingWebsite, Except.error.injEq] at h
      rw [← h]
    | transportError m =>
      simp only [pingWebsite, Except.error.injEq] at h
      rw [← h]

/-- The results array of the cycle loop is the per-index settled probe, one
entry per configured url, in configuration order. -/
lemma cycleLoop_results (parse : String → Except String Url) (ev : Nat → NetEvent)
    (el : Nat → Nat) : ∀ (ws : List String) (i : Nat),
    (cycleLoop parse ev el ws i).1
      = (ws.enumFrom i).map fun q => settle (pingWebsite q.2 (parse q.2) (ev q.1) (el q.1))
  | [], _ => rfl
  | w :: ws, i => by
    simp only [cycleLoop, List.enumFrom_cons, List.map_cons]
    cases h : pingWebsite w (parse w) (ev i) (el i) <;>
      simp [settle, h, cycleLoop_results parse ev el ws (i + 1)]

/-- The cycle loop settles one outcome per configured url. -/
lemma cycleLoop_length (parse : String → Except String Url) (ev : Nat → NetEvent)
    (el : Nat → Nat) (ws : List String) (i : Nat) :
    (cycleLoop parse ev el ws i).1.length = ws.length := by
  simp [cycleLoop_results parse ev el ws i]

/-- `totalTime` accumulates exactly the sum of the settled outcomes'
`responseTime`s: the catch branch's truthiness guard only skips adding a zero. -/
lemma cycleLoop_total (parse : String → Except String Url) (ev : Nat → NetEvent)
    (el : Nat → Nat) : ∀ (ws : List String) (i : Nat),
    (cycleLoop parse ev el ws i).2
      = ((cycleLoop parse ev el ws i).1.map fun r => r.responseTime).sum
  | [], _ => rfl
  | w :: ws, i => by
    simp only [cycleLoop]
    cases h : pingWebsite w (parse w) (ev i) (el i) with
    | ok r => simp [h, cycleLoop_total parse ev el ws (i + 1)]
    | error e =>
      simp only [h, List.map_cons, List.sum_cons]
      rw [cycleLoop_total parse ev el ws (i + 1)]
      by_cases hz : e.responseTime = 0 <;> simp [hz]

/-- Indexing the cycle loop's results: the i-th outcome is the settled probe
of the i-th url. -/
lemma cycleLoop_getD (parse : String → Except String Url) (ev : Nat → NetEvent)
    (el : Nat → Nat) : ∀ (ws : List String) (j i : Nat) (d : ProbeOutcome),
    i < ws.length →
    ((cycleLoop parse ev el ws j).1).getD i d
      = settle (pingWebsite (ws.getD i "") (parse (ws.getD i ""))
          (ev (j + i)) (el (j + i)))
  | [], _, i, _, hi => by simp at hi
  | w :: ws, j, 0, d, _ => by
    cases h : pingWebsite w (parse w) (ev j) (el j) <;>
      simp [cycleLoop, h, settle]
  | w :: ws, j, i + 1, d, hi => by
    have hrec := cycleLoop_getD parse ev el ws (j + 1) i d (by simpa using hi)
    cases h : pingWebsite w (parse w) (ev j) (el j) <;>
      simpa [cycleLoop, h, Nat.add_assoc, Nat.add_comm 1 i] using hrec

/-- `splitOnChar` never produces the empty list (as JavaScript's `split`). -/
lemma splitOnChar_ne_nil (sep : Char) : ∀ cs : List Char, splitOnChar sep cs ≠ []
  | [] => by simp [splitOnChar]
  | c :: cs => by
    by_cases h : c = sep <;> simp [splitOnChar, h]

/-- The configured website list is never empty: the defaults are three urls
and a split of a non-empty env string has at least one piece. -/
lemma websiteUrls_ne_nil (env : Option String) : websiteUrls env ≠ [] := by
  cases env with
  | none => simp [websiteUrls, defaultUrls]
  | some s =>
    by_cases h : s = ""
    · simp [websiteUrls, h, defaultUrls]
    · simp only [websiteUrls, if_neg h, ne_eq, List.map_eq_nil_iff]
      exact splitOnChar_ne_nil ',' s.toList

/-- The `failed` field of the summary, definitionally. -/
lemma pingAllWebsites_failed (websites : List String)
    (parse : String → Except String Url) (ev : Nat → NetEvent) (el : Nat → Nat) :
    (pingAllWebsites websites parse ev el).failed
      = (cycleLoop parse ev el websites 0).1.length
        - ((cycleLoop parse ev el websites 0).1.filter fun r => r.success).length := rfl

/-- The `results` field of the summary, definitionally. -/
lemma pingAllWebsites_results (websites : List String)
    (parse : String → Except String Url) (ev : Nat → NetEvent) (el : Nat → Nat) :
    (pingAllWebsites websites parse ev el).results
      = (cycleLoop parse ev el websites 0).1 := rfl

/-- The `averageResponseTime` field of the summary, definitionally. -/
lemma pingAllWebsites_avg (websites : List String)
    (parse : String → Except String Url) (ev : Nat → NetEvent) (el : Nat → Nat) :
    (pingAllWebsites websites parse ev el).averageResponseTime
      = jsDiv (cycleLoop parse ev el websites 0).2
          (cycleLoop parse ev el websites 0).1.length := rfl

/-- A list's length minus its success-filtered length vanishes exactly when
every element has a truthy `success`. -/
lemma length_sub_filter_eq_zero_iff (l : List ProbeOutcome) :
    l.length - (l.filter fun r => r.success).length = 0 ↔ ∀ r ∈ l, r.success = true := by
  rw [← List.countP_eq_length_filter]
  have hle := List.countP_le_length (p := fun r : ProbeOutcome => r.success) (l := l)
  constructor
  · intro h r hr
    have hcp : List.countP (fun r : ProbeOutcome => r.success) l = l.length := by omega
    exact List.countP_eq_length.mp hcp r hr
  · intro hall
    have h2 : List.countP (fun r : ProbeOutcome => r.success) l = l.length :=
      List.countP_eq_length.mpr hall
    omega

/-- `summary.failed = 0` exactly when every settled outcome has a truthy
`success`. -/
lemma summary_failed_iff (websites : List String) (parse : String → Except String Url)
    (ev : Nat → NetEvent) (el : Nat → Nat) :
    (pingAllWebsites websites parse ev el).failed = 0 ↔
      ∀ r ∈ (pingAllWebsites websites parse ev el).results, r.success = true := by
  rw [pingAllWebsites_failed, pingAllWebsites_results]
  exact length_sub_filter_eq_zero_iff _

/-- When the configured list is non-empty and every outcome of the cycle
succeeded, the validated list is non-empty (the first url's success implies
it parses). -/
lemma validate_ne_of_all_success (websites : List String)
    (parse : String → Except String Url) (ev : Nat → NetEvent) (el : Nat → Nat)
    (hne : websites ≠ [])
    (hall : ∀ r ∈ (pingAllWebsites websites parse ev el).results, r.success = true) :
    validateWebsites websites parse ≠ [] := by
  cases websites with
  | nil => exact absurd rfl hne
  | cons w ws =>
    have hres : (pingAllWebsites (w :: ws) parse ev el).results
        = settle (pingWebsite w (parse w) (ev 0) (el 0))
          :: (ws.enumFrom 1).map
              (fun q => settle (pingWebsite q.2 (parse q.2) (ev q.1) (el q.1))) := by
      simp [pingAllWebsites, cycleLoop_results parse ev el]
    have hs : (settle (pingWebsite w (parse w) (ev 0) (el 0))).success = true :=
      hall _ (by rw [hres]; exact List.mem_cons_self _ _)
    obtain ⟨v, hv⟩ := settle_success_parseOk w (parse w) (ev 0) (el 0) hs
    have hw : w ∈ validateWebsites (w :: ws) parse := by
      apply List.mem_filter.mpr
      refine ⟨List.mem_cons_self w ws, ?_⟩
      show (match parse w with | .ok _ => true | .error _ => false) = true
      rw [hv]
    exact List.ne_nil_of_mem hw

/-! ## Claims -/

/-- C2: the probe classifies a received response as succeeded exactly when the
status code c satisfies 200 ≤ c < 400; a code of 400 or above yields a
resolved outcome with `success = false` that still carries the status code. -/
theorem c2_status_classification (url : String) (pu : Url) (c : Nat) (t : Nat) :
    ∃ r, pingWebsite url (.ok pu) (.response c) t = Except.ok r ∧
      (r.success = true ↔ 200 ≤ c ∧ c < 400) ∧ r.statusCode = some c ∧
      (400 ≤ c → r.success = false) := by
  by_cases h : 200 ≤ c ∧ c < 400
  · refine ⟨⟨url, true, some c, none, t⟩, ?_, ?_, rfl, ?_⟩
    · simp [pingWebsite, h]
    · simpa using h
    · intro h4
      exact absurd h4 (by omega)
  · refine ⟨⟨url, false, some c, none, t⟩, ?_, ?_, rfl, fun _ => rfl⟩
    · simp [pingWebsite, h]
    · simpa using h

/-- C2, at a concrete input: status 404 resolves with `success = false` and the
status code carried. -/
theorem c2_status_classification_witness :
    ∃ r, pingWebsite "https://www.example1.com"
        (.ok { scheme := "https:", hostname := "www.example1.com", pathname := "/" })
        (.response 404) 3 = Except.ok r ∧
      (r.success = true ↔ 200 ≤ 404 ∧ 404 < 400) ∧ r.statusCode = some 404 ∧
      (400 ≤ 404 → r.success = false) :=
  c2_status_classification "https://www.example1.com"
    { scheme := "https:", hostname := "www.example1.com", pathname := "/" } 404 3

/-- C4: for every endpoint list and any mix of per-endpoint outcomes, the
cycle settles exactly one outcome per endpoint, positionally (the results
array is the per-index settled probe over the enumerated input list), and the
outcomes' urls reproduce the configured list in its exact order — no failure
aborts the loop. -/
theorem c4_outcomes_in_order (websites : List String)
    (parse : String → Except String Url) (ev : Nat → NetEvent) (el : Nat → Nat) :
    (pingAllWebsites websites parse ev el).results
      = websites.enum.map
          (fun q => settle (pingWebsite q.2 (parse q.2) (ev q.1) (el q.1))) ∧
    ((pingAllWebsites websites parse ev el).results.map fun r => r.url) = websites := by
  have h1 : (pingAllWebsites websites parse ev el).results
      = websites.enum.map
          (fun q => settle (pingWebsite q.2 (parse q.2) (ev q.1) (el q.1))) := by
    simpa [pingAllWebsites, List.enum] using cycleLoop_results parse ev el websites 0
  refine ⟨h1, ?_⟩
  rw [h1, List.map_map]
  have h2 : ((fun r : ProbeOutcome => r.url) ∘
      fun q : Nat × String => settle (pingWebsite q.2 (parse q.2) (ev q.1) (el q.1)))
      = fun q : Nat × String => q.2 := by
    funext q
    exact settle_url q.2 (parse q.2) (ev q.1) (el q.1)
  rw [h2]
  exact List.enum_map_snd websites

/-- C4, at a concrete input: two endpoints, both timing out, still yield both
outcomes in input order. -/
theorem c4_outcomes_in_order_witness :
    (pingAllWebsites ["not a url", "https://www.example1.com"] sampleParse
        (fun _ => NetEvent.timeout) (fun i => i)).results
      = (["not a url", "https://www.example1.com"].enum.map fun q =>
          settle (pingWebsite q.2 (sampleParse q.2) ((fun _ => NetEvent.timeout) q.1)
            ((fun i => i) q.1))) ∧
    ((pingAllWebsites ["not a url", "https://www.example1.com"] sampleParse
        (fun _ => NetEvent.timeout) (fun i => i)).results.map fun r => r.url)
      = ["not a url", "https://www.example1.com"] :=
  c4_outcomes_in_order ["not a url", "https://www.example1.com"] sampleParse
    (fun _ => NetEvent.timeout) (fun i => i)

/-- C6: every settled outcome carries a status code exactly when it carries no
failure reason, and it carries a failure reason exactly when no response was
obtained (the url failed to parse, the request timed out, or the transport
errored) — an unacceptable status still suppresses the failure reason. -/
theorem c6_status_xor_failure (u : String) (p : Except String Url) (ev : NetEvent)
    (t : Nat) :
    ((settle (pingWebsite u p ev t)).statusCode.isSome = true ↔
      (settle (pingWebsite u p ev t)).error = none) ∧
    ((settle (pingWebsite u p ev t)).error.isSome = true ↔
      ¬ ((∃ v, p = Except.ok v) ∧ ∃ c, ev = NetEvent.response c)) := by
  cases p with
  | error m => cases ev <;> simp [pingWebsite, settle]
  | ok v =>
    cases ev with
    | response c => by_cases h : 200 ≤ c ∧ c < 400 <;> simp [pingWebsite, settle, h]
    | timeout => simp [pingWebsite, settle]
    | transportError m => simp [pingWebsite, settle]

/-- C6, at a concrete input: a timed-out probe has a failure reason and no
status code. -/
theorem c6_status_xor_failure_witness :
    ((settle (pingWebsite "https://www.example1.com"
        (.ok { scheme := "https:", hostname := "www.example1.com", pathname := "/" })
        NetEvent.timeout 9)).statusCode.isSome = true ↔
      (settle (pingWebsite "https://www.example1.com"
        (.ok { scheme := "https:", hostname := "www.example1.com", pathname := "/" })
        NetEvent.timeout 9)).error = none) ∧
    ((settle (pingWebsite "https://www.example1.com"
        (.ok { scheme := "https:", hostname := "www.example1.com", pathname := "/" })
        NetEvent.timeout 9)).error.isSome = true ↔
      ¬ ((∃ v, (Except.ok { scheme := "https:", hostname := "www.example1.com",
                            pathname := "/" } : Except String Url) = Except.ok v) ∧
        ∃ c, NetEvent.timeout = NetEvent.response c)) :=
  c6_status_xor_failure "https://www.example1.com"
    (.ok { scheme := "https:", hostname := "www.example1.com", pathname := "/" })
    NetEvent.timeout 9

/-- A contiguous-substring relation with a cons target either makes the
substring an initial segment or pushes it into the tail. -/
lemma splitConsOfMid {α : Type} {s l : List α} {a : α} (h : s <:+: (a :: l)) :
    (∃ post, s ++ post = a :: l) ∨ s <:+: l := by
  obtain ⟨pre, post, hp⟩ := h
  cases pre with
  | nil => exact Or.inl ⟨post, by simpa using hp⟩
  | cons x pre2 =>
    right
    simp only [List.cons_append, List.cons.injEq] at hp
    exact ⟨pre2, post, hp.2⟩

/-- A star-free contiguous substring of a list headed by a star lives in the
tail. -/
lemma starfreeConsPeel {s l : List Char} (hstar : '*' ∉ s)
    (h : s <:+: ('*' :: l)) : s <:+: l := by
  rcases splitConsOfMid h with ⟨post, hp⟩ | h2
  · cases s with
    | nil => exact ⟨[], l, by simp⟩
    | cons x s2 =>
      simp only [List.cons_append] at hp
      injection hp with h1 h2
      subst h1
      exact absurd (List.mem_cons_self _ _) hstar
  · exact h2

/-- An initial segment longer than the leading block reaches the stars. -/
lemma prefix_contains_star : ∀ (t s d post : List Char),
    s ++ post = t ++ '*' :: '*' :: '*' :: d → t.length < s.length → '*' ∈ s
  | _, [], _, _, _, hl => by simp at hl
  | [], x :: s2, d, post, h, _ => by
    simp only [List.cons_append, List.nil_append] at h
    injection h with h1 _
    subst h1
    exact List.mem_cons_self _ _
  | c :: t2, x :: s2, d, post, h, hl => by
    simp only [List.cons_append] at h
    injection h with h1 h2
    refine List.mem_cons_of_mem _ (prefix_contains_star t2 s2 d post h2 ?_)
    simp only [List.length_cons] at hl
    omega

/-- Any star-free contiguous substring of `t ++ "***" ++ d`, with `t` and `d`
at most 3 characters, has at most 3 characters: a longer one would have to
cover a star. -/
lemma starfreeMidMax3 : ∀ (t : List Char) {s : List Char} (d : List Char),
    d.length ≤ 3 → t.length ≤ 3 → '*' ∉ s →
    s <:+: (t ++ '*' :: '*' :: '*' :: d) → s.length ≤ 3
  | [], s, d, hd, _, hstar, h => by
    simp only [List.nil_append] at h
    have h1 := starfreeConsPeel hstar h
    have h2 := starfreeConsPeel hstar h1
    have h3 := starfreeConsPeel hstar h2
    exact le_trans h3.length_le hd
  | c :: t2, s, d, hd, ht, hstar, h => by
    rcases splitConsOfMid (by simpa using h) with ⟨post, hp⟩ | h2
    · by_contra hlen
      push_neg at hlen
      refine hstar (prefix_contains_star (c :: t2) s d post (by simpa using hp) ?_)
      simp only [List.length_cons] at ht ⊢
      omega
    · refine starfreeMidMax3 t2 d hd ?_ hstar h2
      simp only [List.length_cons] at ht
      omega

/-! ## Claims (continued) -/

/-- C1: the spec and the scripts' own validation messages state that a cycle
probes exactly the validated endpoints, but `pingAllWebsites` iterates the raw
configured list: with the list `["not a url", "https://www.example1.com"]` the
validator keeps only the well-formed url, yet the cycle settles two outcomes —
the unvalidated entry is probed and rejected with an Invalid-URL failure. -/
theorem c1_invalid_urls_still_probed :
    validateWebsites ["not a url", "https://www.example1.com"] sampleParse
      = ["https://www.example1.com"] ∧
    ((pingAllWebsites ["not a url", "https://www.example1.com"] sampleParse
        (fun _ => NetEvent.response 200) (fun _ => 7)).results.map fun r => r.url)
      = ["not a url", "https://www.example1.com"] ∧
    (pingAllWebsites ["not a url", "https://www.example1.com"] sampleParse
        (fun _ => NetEvent.response 200) (fun _ => 7)).results.getD 0 defaultOutcome
      = { url := "not a url", success := false, statusCode := none,
          error := some "Invalid URL: Invalid URL", responseTime := 7 } :=
  ⟨by decide, by decide, by decide⟩

/-- C3 counterexample: on an empty endpoint list the aggregation performs
`totalTime / results.length = 0 / 0`, which is JavaScript `NaN` (the `none` of
`jsDiv`) — not 0 and not a defined sentinel, refuting the claim's empty-case
clause.  (The configured list is in fact never empty: see `websiteUrls_ne_nil`.) -/
theorem c3_counterexample_empty_cycle_nan :
    (pingAllWebsites [] sampleParse (fun _ => NetEvent.timeout) (fun _ => 0)).results
      = [] ∧
    (pingAllWebsites [] sampleParse (fun _ => NetEvent.timeout)
        (fun _ => 0)).averageResponseTime = none :=
  ⟨rfl, rfl⟩

/-- C3 (amended): for every non-empty endpoint list — and the configured list
is always non-empty — `averageResponseTime` is exactly the arithmetic mean of
`responseTime` over all outcomes of the cycle, failed or not. -/
theorem c3_average_is_mean (websites : List String)
    (parse : String → Except String Url) (ev : Nat → NetEvent) (el : Nat → Nat)
    (h : websites ≠ []) :
    (pingAllWebsites websites parse ev el).averageResponseTime
      = some ((((pingAllWebsites websites parse ev el).results.map
            fun r => (r.responseTime : ℚ)).sum)
          / ((pingAllWebsites websites parse ev el).results.length : ℚ)) := by
  have hlen : (cycleLoop parse ev el websites 0).1.length = websites.length :=
    cycleLoop_length parse ev el websites 0
  have hne : (cycleLoop parse ev el websites 0).1.length ≠ 0 := by
    rw [hlen]
    simpa [List.length_eq_zero] using h
  rw [pingAllWebsites_avg, pingAllWebsites_results, jsDiv, if_neg hne]
  congr 1
  rw [cycleLoop_total parse ev el websites 0]
  congr 1
  rw [Nat.cast_list_sum, List.map_map]
  rfl

/-- C3 witness: a one-endpoint cycle, probe answered in 5ms, has average 5. -/
theorem c3_average_is_mean_witness :
    (["https://www.example1.com"] : List String) ≠ [] ∧
    (pingAllWebsites ["https://www.example1.com"] sampleParse
        (fun _ => NetEvent.response 200) (fun _ => 5)).averageResponseTime
      = some ((((pingAllWebsites ["https://www.example1.com"] sampleParse
            (fun _ => NetEvent.response 200) (fun _ => 5)).results.map
              fun r => (r.responseTime : ℚ)).sum)
          / ((pingAllWebsites ["https://www.example1.com"] sampleParse
              (fun _ => NetEvent.response 200) (fun _ => 5)).results.length : ℚ)) :=
  ⟨by decide,
   c3_average_is_mean ["https://www.example1.com"] sampleParse
     (fun _ => NetEvent.response 200) (fun _ => 5) (by decide)⟩

/-- C5 counterexample: for the url `https://ab.com` (host of length 6, so in
the at-most-6 branch) partial masking yields `"https://***/"` — the parsed
pathname `/` is appended — and not exactly the placeholder `"https://***"`
the claim requires for short hosts. -/
theorem c5_counterexample_short_host :
    maskUrl true "https://ab.com"
        (Except.ok { scheme := "https:", hostname := "ab.com", pathname := "/" })
      ≠ "https://***" ∧
    maskUrl true "https://ab.com"
        (Except.ok { scheme := "https:", hostname := "ab.com", pathname := "/" })
      = "https://***/" :=
  ⟨by decide, by decide⟩

/-- C5 (amended): in partial privacy mode, a parsed url with host longer than
6 characters renders the first 3 host characters, `***`, the last 3 host
characters and the original pathname under a fixed `https://` prefix
regardless of the original scheme; a host of at most 6 characters renders the
fully redacted domain `***` but still with the original pathname appended
(so `https://***` followed by the path, not the bare placeholder); only a url
that fails to parse renders exactly `https://***`. -/
theorem c5_partial_mask_shape (scheme host path url : String) :
    (6 < host.toList.length →
      maskUrl true url (Except.ok { scheme := scheme, hostname := host, pathname := path })
        = String.mk ("https://".toList ++ host.toList.take 3 ++ ['*', '*', '*']
            ++ host.toList.drop (host.toList.length - 3) ++ path.toList)) ∧
    (host.toList.length ≤ 6 →
      maskUrl true url (Except.ok { scheme := scheme, hostname := host, pathname := path })
        = String.mk ("https://".toList ++ ['*', '*', '*'] ++ path.toList)) ∧
    (∀ msg, maskUrl true url (Except.error msg) = "https://***") := by
  refine ⟨fun h => ?_, fun h => ?_, fun msg => rfl⟩
  · simp [maskUrl, maskedDomain, show 6 < host.length from h]
  · simp [maskUrl, maskedDomain, show ¬ 6 < host.length from Nat.not_lt.mpr h]

/-- C5 witness: both reachable branches at concrete urls. -/
theorem c5_partial_mask_shape_witness :
    maskUrl true "http://example.org/x"
        (Except.ok { scheme := "http:", hostname := "example.org", pathname := "/x" })
      = String.mk ("https://".toList ++ "example.org".toList.take 3 ++ ['*', '*', '*']
          ++ "example.org".toList.drop ("example.org".toList.length - 3)
          ++ "/x".toList) ∧
    maskUrl true "http://ab.com/x"
        (Except.ok { scheme := "http:", hostname := "ab.com", pathname := "/x" })
      = String.mk ("https://".toList ++ ['*', '*', '*'] ++ "/x".toList) :=
  ⟨(c5_partial_mask_shape "http:" "example.org" "/x" "http://example.org/x").1 (by decide),
   (c5_partial_mask_shape "http:" "ab.com" "/x" "http://ab.com/x").2.1 (by decide)⟩

/-- C7: in the standalone single-cycle mode, `main` exits 0 exactly when every
endpoint of the cycle succeeded, and exits 1 whenever no configured entry
validated or some endpoint of the cycle failed (the configured list, which
the cycle iterates, is never empty, so all-success forces a non-empty
validated set). -/
theorem c7_exit_code (env : Option String) (parse : String → Except String Url)
    (ev : Nat → NetEvent) (el : Nat → Nat) :
    (mainExitCode (websiteUrls env) parse ev el = 0 ↔
      ∀ r ∈ (pingAllWebsites (websiteUrls env) parse ev el).results,
        r.success = true) ∧
    ((validateWebsites (websiteUrls env) parse = [] ∨
        ∃ r ∈ (pingAllWebsites (websiteUrls env) parse ev el).results,
          r.success = false) →
      mainExitCode (websiteUrls env) parse ev el = 1) := by
  have hne := websiteUrls_ne_nil env
  have hfail := summary_failed_iff (websiteUrls env) parse ev el
  constructor
  · constructor
    · intro h0
      by_cases hv : (validateWebsites (websiteUrls env) parse).length = 0
      · simp [mainExitCode, hv] at h0
      · by_cases hf : (pingAllWebsites (websiteUrls env) parse ev el).failed > 0
        · simp [mainExitCode, hv, hf] at h0
        · exact hfail.mp (by omega)
    · intro hall
      have hvne := validate_ne_of_all_success (websiteUrls env) parse ev el hne hall
      have hv : ¬ (validateWebsites (websiteUrls env) parse).length = 0 := by
        simpa [List.length_eq_zero] using hvne
      have hf : (pingAllWebsites (websiteUrls env) parse ev el).failed = 0 :=
        hfail.mpr hall
      simp [mainExitCode, hv, hf]
  · intro hbad
    rcases hbad with hb | ⟨r, hr, hrs⟩
    · have hv : (validateWebsites (websiteUrls env) parse).length = 0 := by
        simp [hb]
      simp [mainExitCode, hv]
    · by_cases hv : (validateWebsites (websiteUrls env) parse).length = 0
      · simp [mainExitCode, hv]
      · have hf : (pingAllWebsites (websiteUrls env) parse ev el).failed ≠ 0 := by
          intro h0
          have := hfail.mp h0 r hr
          rw [this] at hrs
          exact Bool.noConfusion hrs
        simp [mainExitCode, hv, Nat.pos_of_ne_zero hf]

/-- C7 witness: with no configured env, a `new URL` that rejects everything
leaves the validated set empty and the process exits 1. -/
theorem c7_exit_code_witness :
    validateWebsites (websiteUrls none) (fun _ => Except.error "Invalid URL") = [] ∧
    mainExitCode (websiteUrls none) (fun _ => Except.error "Invalid URL")
      (fun _ => NetEvent.response 200) (fun _ => 0) = 1 :=
  ⟨by decide,
   (c7_exit_code none (fun _ => Except.error "Invalid URL")
      (fun _ => NetEvent.response 200) (fun _ => 0)).2 (Or.inl (by decide))⟩

/-- C8 counterexample: the partial mask appends the original pathname, so a
pathname that repeats the host makes the mask output contain the whole host —
a substring of the original host of length 14 > 3 that is neither the first-3
prefix nor the last-3 suffix — refuting the claim quantified over every url. -/
theorem c8_counterexample_path_leak :
    3 < "secrethost.com".toList.length ∧
    "secrethost.com".toList <:+:
      (maskUrl true "https://secrethost.com/secrethost.com"
        (Except.ok { scheme := "https:", hostname := "secrethost.com",
                     pathname := "/secrethost.com" })).toList :=
  ⟨by decide, ⟨"https://sec***com/".toList, [], by decide⟩⟩

/-- C8 (amended): the masked-domain segment itself never reveals more than
the specified first-3 prefix and last-3 suffix: for a host longer than 6
characters containing no literal star, every contiguous substring of
`maskedDomain host` of length at least 4 contains a `*` and hence is not a
substring of the host.  The full mask output does not have this property,
because the original pathname (and the fixed `https://` prefix) is appended
verbatim — see the counterexample. -/
theorem c8_masked_domain_no_leak (host s : List Char) (h6 : 6 < host.length)
    (hstar : '*' ∉ host) (hlen : 4 ≤ s.length) (hs : s <:+: maskedDomain host) :
    ¬ s <:+: host := by
  intro hsub
  have hns : '*' ∉ s := fun hm => hstar (hsub.sublist.subset hm)
  have hmask : maskedDomain host
      = host.take 3 ++ '*' :: '*' :: '*' :: host.drop (host.length - 3) := by
    simp [maskedDomain, h6]
  rw [hmask] at hs
  have h3 := starfreeMidMax3 (host.take 3) (host.drop (host.length - 3))
    (by simp only [List.length_drop]; omega)
    (by simp only [List.length_take]; omega) hns hs
  omega

/-- C8 witness: in `maskedDomain "abcdefgh".toList = "abc***fgh".toList` the
4-character substring `"c***"` is not a substring of the host. -/
theorem c8_masked_domain_no_leak_witness :
    6 < "abcdefgh".toList.length ∧ '*' ∉ "abcdefgh".toList ∧
    4 ≤ "c***".toList.length ∧ "c***".toList <:+: maskedDomain "abcdefgh".toList ∧
    ¬ "c***".toList <:+: "abcdefgh".toList :=
  ⟨by decide, by decide, by decide, ⟨['a', 'b'], ['f', 'g', 'h'], by decide⟩,
   c8_masked_domain_no_leak "abcdefgh".toList "c***".toList (by decide) (by decide)
     (by decide) ⟨['a', 'b'], ['f', 'g', 'h'], by decide⟩⟩

/-- C9: configuration uses a falsy fallback — `parseInt(env) || default` — so
an environment value that parses to 0 or to no number at all (NaN) silently
becomes the built-in default (timeout 30000 in the single-cycle script, 60000
in the cron script, delay 1000), and a zero inter-request delay can never be
configured through the environment. -/
theorem c9_falsy_fallback :
    (∀ s : String, jsParseInt s = none ∨ jsParseInt s = some 0 →
      requestTimeout (some s) = 30000 ∧ requestTimeoutCron (some s) = 60000 ∧
        pingDelay (some s) = 1000) ∧
    (∀ env : Option String, pingDelay env ≠ 0) ∧
    jsParseInt "0" = some 0 := by
  refine ⟨fun s hs => ?_, fun env => ?_, by decide⟩
  · rcases hs with h | h <;>
      simp [requestTimeout, requestTimeoutCron, pingDelay, jsOrDefault, h]
  · cases env with
    | none => simp [pingDelay, jsOrDefault]
    | some s =>
      simp only [pingDelay, Option.some_bind, jsOrDefault]
      cases h : jsParseInt s with
      | none => simp
      | some n =>
        by_cases hn : n = 0 <;> simp [hn]

/-- C9 witness: the literal environment value "0" yields every default. -/
theorem c9_falsy_fallback_witness :
    (jsParseInt "0" = none ∨ jsParseInt "0" = some 0) ∧
    requestTimeout (some "0") = 30000 ∧ requestTimeoutCron (some "0") = 60000 ∧
      pingDelay (some "0") = 1000 :=
  ⟨Or.inr (by decide), c9_falsy_fallback.1 "0" (Or.inr (by decide))⟩

/-- C10: the promise of `pingWebsite` resolves exactly when the url parsed and
an HTTP response (with any status code) arrived, and rejects otherwise; the
cycle runner catches every rejection and stores the rejected value — a failed
outcome — at that endpoint's position in the results, so no per-endpoint
failure escapes `pingAllWebsites`. -/
theorem c10_resolve_reject_contract :
    (∀ (u : String) (p : Except String Url) (ev : NetEvent) (t : Nat),
      (∃ r, pingWebsite u p ev t = Except.ok r) ↔
        ((∃ v, p = Except.ok v) ∧ ∃ c, ev = NetEvent.response c)) ∧
    (∀ (websites : List String) (parse : String → Except String Url)
        (ev : Nat → NetEvent) (el : Nat → Nat) (i : Nat) (e : ProbeOutcome),
      i < websites.length →
      pingWebsite (websites.getD i "") (parse (websites.getD i "")) (ev i) (el i)
        = Except.error e →
      (pingAllWebsites websites parse ev el).results.getD i defaultOutcome = e ∧
        e.success = false) := by
  constructor
  · intro u p ev t
    cases p with
    | error m => cases ev <;> simp [pingWebsite]
    | ok v =>
      cases ev with
      | response c => by_cases h : 200 ≤ c ∧ c < 400 <;> simp [pingWebsite, h]
      | timeout => simp [pingWebsite]
      | transportError m => simp [pingWebsite]
  · intro websites parse ev el i e hi hp
    refine ⟨?_, pingWebsite_error_success _ _ _ _ _ hp⟩
    rw [pingAllWebsites_results,
      cycleLoop_getD parse ev el websites 0 i defaultOutcome hi]
    simp only [Nat.zero_add]
    rw [hp]
    rfl

/-- C10 witness: a single timing-out endpoint's rejected value is recorded as
the cycle's first (failed) outcome. -/
theorem c10_resolve_reject_contract_witness :
    (0 : Nat) < (["https://www.example1.com"] : List String).length ∧
    pingWebsite (["https://www.example1.com"].getD 0 "")
        (sampleParse (["https://www.example1.com"].getD 0 "")) NetEvent.timeout 5
      = Except.error { url := "https://www.example1.com", success := false,
                       statusCode := none, error := some "Request timeout",
                       responseTime := 5 } ∧
    ((pingAllWebsites ["https://www.example1.com"] sampleParse
        (fun _ => NetEvent.timeout) (fun _ => 5)).results.getD 0 defaultOutcome
      = { url := "https://www.example1.com", success := false, statusCode := none,
          error := some "Request timeout", responseTime := 5 } ∧
      ({ url := "https://www.example1.com", success := false, statusCode := none,
         error := some "Request timeout", responseTime := 5 } : ProbeOutcome).success
        = false) :=
  ⟨by decide, rfl,
   c10_resolve_reject_contract.2 ["https://www.example1.com"] sampleParse
     (fun _ => NetEvent.timeout) (fun _ => 5) 0
     { url := "https://www.example1.com", success := false, statusCode := none,
       error := some "Request timeout", responseTime := 5 } (by decide) rfl⟩

end PingService
